import Mathlib

/-!
Verification of the `@skapxd/result` library: a two-variant tagged-union
outcome type (`src/result/index.ts`) and a safe-execution wrapper
(`src/try-safe/index.ts`, plus a historical variant of the same wrapper).

The embedding is a shallow one over a deep embedding of the JavaScript
values the library manipulates: primitives, `undefined`/`null`, `Error`
objects, plain objects, `Promise` instances (carried with their eventual
settlement) and non-`Promise` thenables.
-/

/-- A JavaScript runtime value, as far as this library observes it.
`promiseFulfilled v` / `promiseRejected r` are `Promise` instances carried
together with their eventual settlement; `thenableFulfilled` /
`thenableRejected` are plain objects with a `then` method (awaitable, but
not `instanceof Promise`). `errorObj m` is an `Error` instance with
message `m`; `object ps` is a plain record of named properties. -/
inductive JSValue : Type where
  | undefined
  | nullv
  | boolean (b : Bool)
  | number (n : Int)
  | string (s : String)
  | errorObj (message : String)
  | object (props : List (String × JSValue))
  | promiseFulfilled (v : JSValue)
  | promiseRejected (r : JSValue)
  | thenableFulfilled (v : JSValue)
  | thenableRejected (r : JSValue)

/-- The JavaScript `instanceof Promise` test, as used by `trySafe` to
dispatch between its synchronous and asynchronous branches. Only actual
`Promise` instances pass; plain thenables do not. -/
def JSValue.instanceofPromise : JSValue → Bool
  | .promiseFulfilled _ => true
  | .promiseRejected _ => true
  | _ => false

/-- The JavaScript `instanceof Error` test, as used by the historical
`trySafe` variant's normalization `e instanceof Error ? e : new Error(String(e))`. -/
def JSValue.instanceofError : JSValue → Bool
  | .errorObj _ => true
  | _ => false

/-- A value is awaitable to a later-settling result (it has a `then`
method, so `await` suspends on it): `Promise` instances and plain
thenables alike. -/
def JSValue.isThenable : JSValue → Bool
  | .promiseFulfilled _ => true
  | .promiseRejected _ => true
  | .thenableFulfilled _ => true
  | .thenableRejected _ => true
  | _ => false

/-- The JavaScript `String(v)` coercion on the values of the model,
used by the historical variant's `new Error(String(e))`. -/
def JSValue.jsString : JSValue → String
  | .undefined => "undefined"
  | .nullv => "null"
  | .boolean b => if b then "true" else "false"
  | .number n => toString n
  | .string s => s
  | .errorObj m => "Error: " ++ m
  | .object _ => "[object Object]"
  | .promiseFulfilled _ => "[object Promise]"
  | .promiseRejected _ => "[object Promise]"
  | .thenableFulfilled _ => "[object Object]"
  | .thenableRejected _ => "[object Object]"

/-- The `Result<T, E>` discriminated union of `src/result/index.ts`:
`Ok` is `{ ok: true, value }`, `Err` is `{ ok: false, error }`.
The constructors are the embeddings of `Result.ok` and `Result.err`
(`ok: (value) => ({ ok: true, value })`, `err: (error) => ({ ok: false, error })`):
each wraps its argument verbatim, with no validation and no flattening. -/
inductive Result : Type where
  | ok (value : JSValue)
  | err (error : JSValue)

namespace Result

/-- Reading the `ok` field (the boolean discriminant) of a `Result`
object: `true` on the `Ok` shape, `false` on the `Err` shape. -/
def okField : Result → Bool
  | .ok _ => true
  | .err _ => false

/-- Reading the `value` field of a `Result` object. On the `Err` shape
the field is absent, so the read yields `undefined`. -/
def valueField : Result → JSValue
  | .ok v => v
  | .err _ => .undefined

/-- Reading the `error` field of a `Result` object. On the `Ok` shape
the field is absent, so the read yields `undefined`. -/
def errorField : Result → JSValue
  | .ok _ => .undefined
  | .err e => e

/-- `Result.isOk`: `(result) => result.ok`. -/
def isOk (result : Result) : Bool := result.okField

/-- `Result.isErr`: `(result) => !result.ok`. -/
def isErr (result : Result) : Bool := !result.okField

/-- `Result.unwrapOr`: `(result, defaultValue) => result.ok ? result.value : defaultValue`. -/
def unwrapOr (result : Result) (defaultValue : JSValue) : JSValue :=
  if result.okField then result.valueField else defaultValue

end Result

/-- The behaviour of one invocation of a zero-argument callable passed to
`trySafe`: it either throws a value synchronously or returns a value
(which may itself be a `Promise`). -/
inductive Callable : Type where
  | throws (e : JSValue)
  | retn (v : JSValue)

/-- The fate of a promise whose fulfillment value is a `Result` object:
either it fulfills with that `Result`, or it rejects with a reason. -/
inductive ResultPromise : Type where
  | fulfilled (r : Result)
  | rejected (e : JSValue)

/-- Promise `then` with a non-throwing handler returning a plain object:
a fulfillment value is mapped through the handler, a rejection passes
through unchanged. -/
def thenMap (p : JSValue) (f : JSValue → Result) : ResultPromise :=
  match p with
  | .promiseFulfilled v => .fulfilled (f v)
  | .promiseRejected r => .rejected r
  | v => .fulfilled (f v)

/-- Promise `catch` with a non-throwing handler returning a plain object:
a fulfillment passes through, a rejection is mapped through the handler
into a fulfillment (so the resulting promise never rejects). -/
def catchMap (p : ResultPromise) (g : JSValue → Result) : ResultPromise :=
  match p with
  | .fulfilled r => .fulfilled r
  | .rejected e => .fulfilled (g e)

/-- What `trySafe` hands back to its caller: either a `Result` object
returned synchronously, or a pending promise returned without blocking. -/
inductive TrySafeOutput : Type where
  | sync (r : Result)
  | pending (p : ResultPromise)

/-- The exported `trySafe` of `src/try-safe/index.ts`: invoke the
callable inside `try`; if the returned value is `instanceof Promise`,
chain `.then(value => ({ ok: true, value })).catch(error => ({ ok: false, error }))`
and return the pending promise; otherwise return `{ ok: true, value: result }`
synchronously; on a synchronous throw return `{ ok: false, error }`
synchronously, the error exactly as received. -/
def trySafe (fn : Callable) : TrySafeOutput :=
  match fn with
  | .throws e => .sync (Result.err e)
  | .retn v =>
    if v.instanceofPromise then
      .pending (catchMap (thenMap v (fun value => Result.ok value))
        (fun error => Result.err error))
    else
      .sync (Result.ok v)

/-- The historical variant's error normalization:
`e instanceof Error ? e : new Error(String(e))`. -/
def normalizeError (e : JSValue) : JSValue :=
  if e.instanceofError then e else .errorObj (JSValue.jsString e)

/-- The historical variant of `trySafe` (overloaded signature version):
identical control flow to the exported one, except that every captured
error — caught synchronously or taken from a rejection — is normalized by
`e instanceof Error ? e : new Error(String(e))`. -/
def trySafeLegacy (fn : Callable) : TrySafeOutput :=
  match fn with
  | .throws e => .sync (Result.err (normalizeError e))
  | .retn v =>
    if v.instanceofPromise then
      .pending (catchMap (thenMap v (fun value => Result.ok value))
        (fun e => Result.err (normalizeError e)))
    else
      .sync (Result.ok v)

/-- A value that fails `instanceof Error` is not an `Error` object. -/
theorem not_errorObj_of_not_instanceofError (e : JSValue)
    (h : e.instanceofError = false) : ∀ m, e ≠ .errorObj m := by
  intro m hm
  subst hm
  simp [JSValue.instanceofError] at h

/-- C6: for every value `v`, `Result.ok v` yields a record whose
discriminant flag is `true` and whose value payload is exactly `v`
(any value, `null`/`undefined` included, accepted verbatim with no
flattening); and for every `e`, `Result.err e` yields a record whose
discriminant flag is `false` and whose error payload is exactly `e`. -/
theorem result_constructors_spec (v e : JSValue) :
    (Result.ok v).okField = true ∧ (Result.ok v).valueField = v
    ∧ (Result.err e).okField = false ∧ (Result.err e).errorField = e :=
  ⟨rfl, rfl, rfl, rfl⟩

/-- C7: `isOk` is true and `isErr` false on every `Result.ok v`, and
`isErr` is true and `isOk` false on every `Result.err e`. -/
theorem result_guards_spec (v e : JSValue) :
    Result.isOk (Result.ok v) = true ∧ Result.isErr (Result.ok v) = false
    ∧ Result.isErr (Result.err e) = true ∧ Result.isOk (Result.err e) = false :=
  ⟨rfl, rfl, rfl, rfl⟩

/-- C8: `unwrapOr` returns the success payload on an `Ok` and the
default on an `Err`, for every value, error and default; it is a total
function, so it never raises. -/
theorem result_unwrapOr_spec (v e d : JSValue) :
    Result.unwrapOr (Result.ok v) d = v ∧ Result.unwrapOr (Result.err e) d = d :=
  ⟨rfl, rfl⟩

/-- C9: `isOk`, `isErr` and `unwrapOr` consult only the `ok`
discriminant field (never payload presence); in particular a success
payload of `undefined` is not confused with absence: for any default
`d`, `unwrapOr (Result.ok undefined) d` is `undefined` (the stored
payload), and `isOk (Result.ok undefined)` is `true`. -/
theorem result_discriminant_sole_spec (d : JSValue) :
    Result.unwrapOr (Result.ok JSValue.undefined) d = JSValue.undefined
    ∧ Result.isOk (Result.ok JSValue.undefined) = true
    ∧ (∀ r : Result, Result.isOk r = r.okField)
    ∧ (∀ r : Result, Result.isErr r = !r.okField)
    ∧ (∀ r : Result, Result.unwrapOr r d = if r.okField then r.valueField else d) :=
  ⟨rfl, rfl, fun _ => rfl, fun _ => rfl, fun _ => rfl⟩

/-- C10: on every `Result` value, `isErr` is the boolean negation of
`isOk`, so exactly one of the two predicates holds. -/
theorem result_guards_complement (r : Result) :
    Result.isErr r = !Result.isOk r
    ∧ (Result.isOk r = true ∨ Result.isErr r = true)
    ∧ ¬(Result.isOk r = true ∧ Result.isErr r = true) := by
  cases r <;> simp [Result.isOk, Result.isErr, Result.okField]

/-- C1: a callable that throws synchronously yields a failure outcome
synchronously (a `sync` output, no async machinery), and a callable that
returns a non-`Promise` value `v` yields `{ ok: true, value: v }`
synchronously. -/
theorem trySafe_sync_spec (e v : JSValue) (h : v.instanceofPromise = false) :
    trySafe (Callable.throws e) = .sync (Result.err e)
    ∧ trySafe (Callable.retn v) = .sync (Result.ok v) := by
  constructor
  · rfl
  · simp [trySafe, h]

/-- Witness for C1 at the concrete callables `() => { throw 'boom' }`
and `() => 42`. -/
theorem trySafe_sync_spec_witness :
    (JSValue.number 42).instanceofPromise = false
    ∧ (trySafe (Callable.throws (JSValue.string "boom"))
        = .sync (Result.err (JSValue.string "boom"))
      ∧ trySafe (Callable.retn (JSValue.number 42))
        = .sync (Result.ok (JSValue.number 42))) :=
  ⟨rfl, trySafe_sync_spec (JSValue.string "boom") (JSValue.number 42) rfl⟩

/-- C2: a callable returning a `Promise` yields, without blocking, a
pending promise that fulfills with `{ ok: true, value: v }` when the
source fulfills with `v` and with `{ ok: false, error: r }` when the
source rejects with `r`; the returned promise itself never rejects
(its fate is a fulfillment in both cases). -/
theorem trySafe_async_spec (v r : JSValue) :
    trySafe (Callable.retn (JSValue.promiseFulfilled v))
      = .pending (ResultPromise.fulfilled (Result.ok v))
    ∧ trySafe (Callable.retn (JSValue.promiseRejected r))
      = .pending (ResultPromise.fulfilled (Result.err r)) :=
  ⟨rfl, rfl⟩

/-- C3: the exported `trySafe` is preserve-raw: whatever value is thrown
synchronously or used as the rejection reason — string, number, plain
object, anything — appears as the failure payload exactly as raised,
unmodified. -/
theorem trySafe_preserve_raw (e : JSValue) :
    trySafe (Callable.throws e) = .sync (Result.err e)
    ∧ trySafe (Callable.retn (JSValue.promiseRejected e))
      = .pending (ResultPromise.fulfilled (Result.err e)) :=
  ⟨rfl, rfl⟩

/-- C4: the exported `trySafe` and the historical variant agree on every
successful callable (synchronous or via a fulfilled promise) and on every
raised value that is already an `Error`; on every non-`Error` raised
value they disagree: the exported one carries the raised value verbatim,
the historical one carries `new Error(String(raised))` instead. -/
theorem trySafe_variants_spec (e v : JSValue) :
    (v.instanceofPromise = false →
      trySafeLegacy (Callable.retn v) = trySafe (Callable.retn v))
    ∧ trySafeLegacy (Callable.retn (JSValue.promiseFulfilled v))
        = trySafe (Callable.retn (JSValue.promiseFulfilled v))
    ∧ (e.instanceofError = true →
        trySafeLegacy (Callable.throws e) = trySafe (Callable.throws e)
        ∧ trySafeLegacy (Callable.retn (JSValue.promiseRejected e))
          = trySafe (Callable.retn (JSValue.promiseRejected e)))
    ∧ (e.instanceofError = false →
        trySafe (Callable.throws e) = .sync (Result.err e)
        ∧ trySafeLegacy (Callable.throws e)
            = .sync (Result.err (JSValue.errorObj (JSValue.jsString e)))
        ∧ trySafeLegacy (Callable.throws e) ≠ trySafe (Callable.throws e)
        ∧ trySafe (Callable.retn (JSValue.promiseRejected e))
            = .pending (ResultPromise.fulfilled (Result.err e))
        ∧ trySafeLegacy (Callable.retn (JSValue.promiseRejected e))
            = .pending (ResultPromise.fulfilled
                (Result.err (JSValue.errorObj (JSValue.jsString e))))
        ∧ trySafeLegacy (Callable.retn (JSValue.promiseRejected e))
            ≠ trySafe (Callable.retn (JSValue.promiseRejected e))) := by
  refine ⟨?_, ?_, ?_, ?_⟩
  · intro h
    simp [trySafe, trySafeLegacy, h]
  · rfl
  · intro h
    constructor
    · simp [trySafe, trySafeLegacy, normalizeError, h]
    · simp [trySafe, trySafeLegacy, thenMap, catchMap,
        JSValue.instanceofPromise, normalizeError, h]
  · intro h
    have hne : ∀ m, e ≠ .errorObj m := not_errorObj_of_not_instanceofError e h
    refine ⟨rfl, ?_, ?_, rfl, ?_, ?_⟩
    · simp [trySafeLegacy, normalizeError, h]
    · simp [trySafe, trySafeLegacy, normalizeError, h]
      exact fun hm => (hne _ hm.symm).elim
    · simp [trySafe, trySafeLegacy, thenMap, catchMap,
        JSValue.instanceofPromise, normalizeError, h]
    · simp [trySafe, trySafeLegacy, thenMap, catchMap,
        JSValue.instanceofPromise, normalizeError, h]
      exact fun hm => (hne _ hm.symm).elim

/-- Witness for C4 at the concrete raised values `new Error('boom')`
(agreement) and the string `'fail'` (disagreement), and the concrete
success value `42`. -/
theorem trySafe_variants_spec_witness :
    ((JSValue.number 42).instanceofPromise = false
      ∧ (JSValue.errorObj "boom").instanceofError = true
      ∧ (JSValue.string "fail").instanceofError = false)
    ∧ trySafeLegacy (Callable.retn (JSValue.number 42))
        = trySafe (Callable.retn (JSValue.number 42))
    ∧ trySafeLegacy (Callable.throws (JSValue.errorObj "boom"))
        = trySafe (Callable.throws (JSValue.errorObj "boom"))
    ∧ trySafeLegacy (Callable.throws (JSValue.string "fail"))
        = .sync (Result.err (JSValue.errorObj "fail"))
    ∧ trySafeLegacy (Callable.throws (JSValue.string "fail"))
        ≠ trySafe (Callable.throws (JSValue.string "fail")) :=
  ⟨⟨rfl, rfl, rfl⟩,
    (trySafe_variants_spec (JSValue.string "fail") (JSValue.number 42)).1 rfl,
    ((trySafe_variants_spec (JSValue.errorObj "boom") (JSValue.number 42)).2.2.1 rfl).1,
    ((trySafe_variants_spec (JSValue.string "fail") (JSValue.number 42)).2.2.2 rfl).2.1,
    ((trySafe_variants_spec (JSValue.string "fail") (JSValue.number 42)).2.2.2 rfl).2.2.1⟩

/-- C5 counterexample: a non-`Promise` thenable is awaitable (it has a
`then` method, so awaiting it settles later), yet `trySafe` does not
dispatch it to the asynchronous branch: it returns a synchronous success
outcome wrapping the thenable itself. -/
theorem trySafe_thenable_counterexample :
    JSValue.isThenable (JSValue.thenableFulfilled (JSValue.number 1)) = true
    ∧ trySafe (Callable.retn (JSValue.thenableFulfilled (JSValue.number 1)))
        = .sync (Result.ok (JSValue.thenableFulfilled (JSValue.number 1))) :=
  ⟨rfl, rfl⟩

/-- C5 amended: `trySafe` dispatches to the asynchronous branch exactly
when the returned result is an actual `Promise` instance
(`result instanceof Promise`); every non-`Promise` result — including an
awaitable thenable — is returned synchronously as a success outcome
wrapping it. -/
theorem trySafe_dispatch_spec (v w : JSValue) (h : v.instanceofPromise = false) :
    trySafe (Callable.retn v) = .sync (Result.ok v)
    ∧ trySafe (Callable.retn (JSValue.promiseFulfilled w))
        = .pending (ResultPromise.fulfilled (Result.ok w))
    ∧ trySafe (Callable.retn (JSValue.promiseRejected w))
        = .pending (ResultPromise.fulfilled (Result.err w)) := by
  refine ⟨?_, rfl, rfl⟩
  simp [trySafe, h]

/-- Witness for the amended C5 at a concrete thenable result and a
concrete promise result. -/
theorem trySafe_dispatch_spec_witness :
    (JSValue.thenableFulfilled (JSValue.number 3)).instanceofPromise = false
    ∧ (trySafe (Callable.retn (JSValue.thenableFulfilled (JSValue.number 3)))
        = .sync (Result.ok (JSValue.thenableFulfilled (JSValue.number 3)))
      ∧ trySafe (Callable.retn (JSValue.promiseFulfilled (JSValue.number 2)))
        = .pending (ResultPromise.fulfilled (Result.ok (JSValue.number 2)))
      ∧ trySafe (Callable.retn (JSValue.promiseRejected (JSValue.number 2)))
        = .pending (ResultPromise.fulfilled (Result.err (JSValue.number 2)))) :=
  ⟨rfl, trySafe_dispatch_spec (JSValue.thenableFulfilled (JSValue.number 3))
    (JSValue.number 2) rfl⟩
